import Mathlib

/-!
Shallow embedding of the ARF rate-adaptation engine from
`src/arf-wifi-manager.cc` (ns-3 `ArfWifiManager`), together with proofs of
the behavioural properties of its per-station state machine.

Machine integers (`uint32_t` counters) are modelled as `Nat`: every
arithmetic operation the engine performs on them is an increment, a reset
to zero, or a guarded decrement (`m_rate--` only under `m_rate != 0`), so
no operation can underflow and the properties proved here do not depend on
wrap-around behaviour.
-/

/-- Per-remote-station record, mirroring `struct ArfWifiRemoteStation`
(fields in declaration order of the source struct). -/
structure ArfWifiRemoteStation where
  m_timer : Nat
  m_success : Nat
  m_failed : Nat
  m_recovery : Bool
  m_retry : Nat
  m_timerTimeout : Nat
  m_successThreshold : Nat
  m_rate : Nat
deriving DecidableEq, Repr

/-- Engine-wide configuration of `ArfWifiManager`: the two attributes
`SuccessThreshold` (default 10) and `TimerThreshold` (default 15). -/
structure ArfWifiManager where
  m_successThreshold : Nat
  m_timerThreshold : Nat
deriving DecidableEq, Repr

/-- Mirrors `ArfWifiManager::DoCreateStation`: a fresh station with all
counters zero, `m_recovery = false`, `m_rate = 0`, and the engine-wide
thresholds copied into the per-station fields. -/
def DoCreateStation (mgr : ArfWifiManager) : ArfWifiRemoteStation :=
  { m_successThreshold := mgr.m_successThreshold
  , m_timerTimeout := mgr.m_timerThreshold
  , m_rate := 0
  , m_success := 0
  , m_failed := 0
  , m_recovery := false
  , m_retry := 0
  , m_timer := 0 }

/-- Mirrors `ArfWifiManager::DoReportDataFailed`: unconditional counter
updates first, then the recovery / normal fallback branch. -/
def DoReportDataFailed (st : ArfWifiRemoteStation) : ArfWifiRemoteStation :=
  let station := { st with m_timer := st.m_timer + 1
                         , m_failed := st.m_failed + 1
                         , m_retry := st.m_retry + 1
                         , m_success := 0 }
  if station.m_recovery then
    -- need recovery fallback
    let station :=
      if station.m_retry = 1 then
        if station.m_rate ≠ 0 then { station with m_rate := station.m_rate - 1 }
        else station
      else station
    { station with m_timer := 0 }
  else
    -- need normal fallback
    let station :=
      if (station.m_retry - 1) % 2 = 1 then
        if station.m_rate ≠ 0 then { station with m_rate := station.m_rate - 1 }
        else station
      else station
    if 2 ≤ station.m_retry then { station with m_timer := 0 } else station

/-- Mirrors `ArfWifiManager::DoReportDataOk`. `supportedRateCount` stands
for `station->m_state->m_operationalRateSet.size ()`; the rate-increase
test reads the MANAGER's `m_successThreshold` / `m_timerThreshold` (as the
source does), not the per-station copies. -/
def DoReportDataOk (mgr : ArfWifiManager) (supportedRateCount : Nat)
    (st : ArfWifiRemoteStation) : ArfWifiRemoteStation :=
  let station := { st with m_timer := st.m_timer + 1
                         , m_success := st.m_success + 1
                         , m_failed := 0
                         , m_recovery := false
                         , m_retry := 0 }
  if (station.m_success = mgr.m_successThreshold
        ∨ station.m_timer = mgr.m_timerThreshold)
      ∧ station.m_rate < supportedRateCount - 1 then
    { station with m_rate := station.m_rate + 1
                 , m_timer := 0
                 , m_success := 0
                 , m_recovery := true }
  else station

/-- Mirrors `ArfWifiManager::SetHtSupported`: `NS_FATAL_ERROR` (modelled as
`Except.error`) when `enable` is true, otherwise nothing happens. -/
def SetHtSupported (enable : Bool) : Except String Unit :=
  if enable then
    Except.error "WifiRemoteStationManager selected does not support HT rates"
  else Except.ok ()

/-- Mirrors `ArfWifiManager::SetVhtSupported`. -/
def SetVhtSupported (enable : Bool) : Except String Unit :=
  if enable then
    Except.error "WifiRemoteStationManager selected does not support VHT rates"
  else Except.ok ()

/-- Mirrors `ArfWifiManager::SetHeSupported`. -/
def SetHeSupported (enable : Bool) : Except String Unit :=
  if enable then
    Except.error "WifiRemoteStationManager selected does not support HE rates"
  else Except.ok ()

/-- The two data-outcome events the MAC layer can report to the engine for
a station (the other report hooks do not touch `ArfWifiRemoteStation`). -/
inductive ArfEvent where
  | dataOk : ArfEvent
  | dataFailed : ArfEvent
deriving DecidableEq, Repr

/-- One outcome report dispatched to the matching handler. -/
def reportStep (mgr : ArfWifiManager) (supportedRateCount : Nat)
    (s : ArfWifiRemoteStation) (e : ArfEvent) : ArfWifiRemoteStation :=
  match e with
  | ArfEvent.dataOk => DoReportDataOk mgr supportedRateCount s
  | ArfEvent.dataFailed => DoReportDataFailed s

/-- A finite sequence of outcome reports applied in order. -/
def runReports (mgr : ArfWifiManager) (supportedRateCount : Nat)
    (es : List ArfEvent) (s : ArfWifiRemoteStation) : ArfWifiRemoteStation :=
  es.foldl (reportStep mgr supportedRateCount) s

/-! ### Helper lemmas on single steps -/

/-- Closed form of `DoReportDataFailed`: in the recovery branch the rate
drops (when positive) exactly on the first failure of the streak and the
timer is always cleared; in the normal branch the rate drops on
even-numbered failures and the timer is cleared from the second failure
on. `Nat` subtraction makes `m_rate - 1` coincide with the guarded
decrement also at rate 0. -/
lemma failed_eq (s : ArfWifiRemoteStation) :
    DoReportDataFailed s =
      if s.m_recovery then
        { s with m_timer := 0
               , m_failed := s.m_failed + 1
               , m_retry := s.m_retry + 1
               , m_success := 0
               , m_rate := if s.m_retry = 0 then s.m_rate - 1 else s.m_rate }
      else
        { s with m_timer := if 1 ≤ s.m_retry then 0 else s.m_timer + 1
               , m_failed := s.m_failed + 1
               , m_retry := s.m_retry + 1
               , m_success := 0
               , m_rate := if s.m_retry % 2 = 1 then s.m_rate - 1 else s.m_rate } := by
  unfold DoReportDataFailed
  dsimp only
  split_ifs <;> first | rfl | (simp_all; try omega)

/-- Closed form of `DoReportDataOk`: either the increase fires (new
success count equals the engine success threshold or new timer equals the
engine timer threshold, with rate headroom) or the call just counts. -/
lemma ok_eq (mgr : ArfWifiManager) (n : Nat) (s : ArfWifiRemoteStation) :
    DoReportDataOk mgr n s =
      if (s.m_success + 1 = mgr.m_successThreshold
            ∨ s.m_timer + 1 = mgr.m_timerThreshold) ∧ s.m_rate < n - 1 then
        { s with m_timer := 0
               , m_success := 0
               , m_failed := 0
               , m_recovery := true
               , m_retry := 0
               , m_rate := s.m_rate + 1 }
      else
        { s with m_timer := s.m_timer + 1
               , m_success := s.m_success + 1
               , m_failed := 0
               , m_recovery := false
               , m_retry := 0 } := by
  unfold DoReportDataOk
  dsimp only

/-- A failure report leaves the rate unchanged or decrements it by one
(the decrement is guarded by `m_rate != 0`). -/
lemma failed_rate_cases (s : ArfWifiRemoteStation) :
    (DoReportDataFailed s).m_rate = s.m_rate ∨
      (DoReportDataFailed s).m_rate + 1 = s.m_rate := by
  unfold DoReportDataFailed
  dsimp only
  split_ifs <;> simp_all <;> omega

/-- A success report leaves the rate unchanged or, when the increase guard
held, increments it by one. -/
lemma ok_rate_cases (mgr : ArfWifiManager) (n : Nat) (s : ArfWifiRemoteStation) :
    (DoReportDataOk mgr n s).m_rate = s.m_rate ∨
      ((DoReportDataOk mgr n s).m_rate = s.m_rate + 1 ∧ s.m_rate < n - 1) := by
  unfold DoReportDataOk
  dsimp only
  split <;> simp_all

/-- One report preserves the strict rate bound `m_rate < n`. -/
lemma reportStep_rate_lt (mgr : ArfWifiManager) (n : Nat)
    (s : ArfWifiRemoteStation) (e : ArfEvent) (h : s.m_rate < n) :
    (reportStep mgr n s e).m_rate < n := by
  cases e with
  | dataOk =>
      rcases ok_rate_cases mgr n s with hc | ⟨hc, hg⟩ <;> simp [reportStep, hc] <;> omega
  | dataFailed =>
      rcases failed_rate_cases s with hc | hc <;> simp [reportStep, hc] <;> omega

/-- The rate bound is preserved by any finite report sequence. -/
lemma runReports_rate_lt (mgr : ArfWifiManager) (n : Nat)
    (es : List ArfEvent) (s : ArfWifiRemoteStation) (h : s.m_rate < n) :
    (runReports mgr n es s).m_rate < n := by
  induction es generalizing s with
  | nil => exact h
  | cons e es ih => exact ih _ (reportStep_rate_lt mgr n s e h)

lemma runReports_nil (mgr : ArfWifiManager) (n : Nat) (s : ArfWifiRemoteStation) :
    runReports mgr n [] s = s := rfl

lemma runReports_cons (mgr : ArfWifiManager) (n : Nat) (e : ArfEvent)
    (es : List ArfEvent) (s : ArfWifiRemoteStation) :
    runReports mgr n (e :: es) s = runReports mgr n es (reportStep mgr n s e) := rfl

lemma runReports_append (mgr : ArfWifiManager) (n : Nat)
    (es fs : List ArfEvent) (s : ArfWifiRemoteStation) :
    runReports mgr n (es ++ fs) s = runReports mgr n fs (runReports mgr n es s) :=
  List.foldl_append _ _ es fs

/-- While neither threshold is hit, a block of `k` successes (1 ≤ k ≤ 9,
engine success threshold 10, timer headroom of at least 10 reports) only
counts: success reaches `k`, the timer advances by `k`, the rate is
untouched. -/
lemma okRun_counting (mgr : ArfWifiManager) (n : Nat) (s : ArfWifiRemoteStation)
    (hsucc : s.m_success = 0) (hst : mgr.m_successThreshold = 10)
    (htimer : s.m_timer + 10 ≤ mgr.m_timerThreshold) :
    ∀ k, 1 ≤ k → k ≤ 9 →
      runReports mgr n (List.replicate k ArfEvent.dataOk) s =
        { s with m_timer := s.m_timer + k
               , m_success := k
               , m_failed := 0
               , m_recovery := false
               , m_retry := 0 } := by
  intro k
  induction k with
  | zero => omega
  | succ k ih =>
    intro _ hk9
    rcases Nat.eq_zero_or_pos k with hk0 | hkpos
    · subst hk0
      have h1 : runReports mgr n (List.replicate 1 ArfEvent.dataOk) s =
          DoReportDataOk mgr n s := rfl
      rw [h1, ok_eq]
      have hc1 : ¬ (s.m_success + 1 = mgr.m_successThreshold) := by omega
      have hc2 : ¬ (s.m_timer + 1 = mgr.m_timerThreshold) := by omega
      simp [hc1, hc2, hsucc, hst]
    · have hrep : List.replicate (k + 1) ArfEvent.dataOk =
          List.replicate k ArfEvent.dataOk ++ [ArfEvent.dataOk] :=
        List.replicate_succ' _ _
      rw [hrep, runReports_append, ih hkpos (by omega)]
      have h1 : ∀ t, runReports mgr n [ArfEvent.dataOk] t = DoReportDataOk mgr n t :=
        fun t => rfl
      rw [h1, ok_eq]
      have hc1 : ¬ (k + 1 = mgr.m_successThreshold) := by omega
      have hc2 : ¬ (s.m_timer + k + 1 = mgr.m_timerThreshold) := by omega
      simp [hc1, hc2]
      omega

/-- From any state with success streak at 0, `m` successes still needed to
hit the engine success threshold, and rate headroom, some block of
consecutive successes bumps the rate by exactly one (the timer threshold
can only make the bump come sooner). -/
lemma climb_one (mgr : ArfWifiManager) (n : Nat) :
    ∀ (m : Nat) (s : ArfWifiRemoteStation), 1 ≤ m →
      s.m_success + m = mgr.m_successThreshold → s.m_rate < n - 1 →
      ∃ k, (runReports mgr n (List.replicate k ArfEvent.dataOk) s).m_rate
              = s.m_rate + 1 ∧
           (runReports mgr n (List.replicate k ArfEvent.dataOk) s).m_success = 0 := by
  intro m
  induction m with
  | zero => omega
  | succ m ih =>
    intro s _ hsum hrate
    by_cases hc : s.m_success + 1 = mgr.m_successThreshold
        ∨ s.m_timer + 1 = mgr.m_timerThreshold
    · refine ⟨1, ?_, ?_⟩ <;>
      · have h1 : runReports mgr n (List.replicate 1 ArfEvent.dataOk) s =
            DoReportDataOk mgr n s := rfl
        rw [h1, ok_eq]
        simp [hc, hrate]
    · push_neg at hc
      have hs1 : DoReportDataOk mgr n s =
          { s with m_timer := s.m_timer + 1
                 , m_success := s.m_success + 1
                 , m_failed := 0
                 , m_recovery := false
                 , m_retry := 0 } := by
        rw [ok_eq]
        simp [hc.1, hc.2]
      have hm : 1 ≤ m := by
        rcases Nat.eq_zero_or_pos m with h0 | h1
        · exact absurd (by omega) hc.1
        · exact h1
      obtain ⟨k, hk1, hk2⟩ := ih (DoReportDataOk mgr n s) hm
        (by rw [hs1]; dsimp only; omega) (by rw [hs1]; exact hrate)
      refine ⟨k + 1, ?_, ?_⟩
      · rw [List.replicate_succ, runReports_cons]
        have hstep : reportStep mgr n s ArfEvent.dataOk = DoReportDataOk mgr n s := rfl
        rw [hstep, hk1, hs1]
      · rw [List.replicate_succ, runReports_cons]
        exact hk2

/-- Iterating `climb_one`: with a positive engine success threshold, from
any state with success streak 0 and `j` steps of rate headroom there is a
report sequence raising the rate by exactly `j`. -/
lemma climb (mgr : ArfWifiManager) (n : Nat) (hth : 1 ≤ mgr.m_successThreshold) :
    ∀ (j : Nat) (s : ArfWifiRemoteStation), s.m_success = 0 →
      s.m_rate + j ≤ n - 1 →
      ∃ es, (runReports mgr n es s).m_rate = s.m_rate + j ∧
            (runReports mgr n es s).m_success = 0 := by
  intro j
  induction j with
  | zero =>
      intro s hs _
      exact ⟨[], by simp [runReports_nil], by simpa [runReports_nil] using hs⟩
  | succ j ih =>
    intro s hs hle
    have hrate : s.m_rate < n - 1 := by omega
    obtain ⟨k, hk1, hk2⟩ := climb_one mgr n mgr.m_successThreshold s hth
      (by omega) hrate
    obtain ⟨es, he1, he2⟩ := ih (runReports mgr n (List.replicate k ArfEvent.dataOk) s)
      hk2 (by omega)
    refine ⟨List.replicate k ArfEvent.dataOk ++ es, ?_, ?_⟩
    · rw [runReports_append, he1, hk1]
      omega
    · rw [runReports_append]
      exact he2

/-! ### Claim theorems -/

/-- C1: for every station created by `DoCreateStation` and every finite
sequence of `DoReportDataFailed` / `DoReportDataOk` reports, given a
supported-rate table with at least one entry, the rate index stays within
bounds: `0 ≤ m_rate < supportedRateCount` in every reachable state (the
lower bound is the type of `m_rate`; the decrement is guarded by
`m_rate != 0` and the increment by `m_rate < supportedRateCount - 1`). -/
theorem arf_rate_invariant (mgr : ArfWifiManager) (supportedRateCount : Nat)
    (hn : 1 ≤ supportedRateCount) (es : List ArfEvent) :
    (runReports mgr supportedRateCount es (DoCreateStation mgr)).m_rate
      < supportedRateCount := by
  refine runReports_rate_lt mgr supportedRateCount es (DoCreateStation mgr) ?_
  simpa [DoCreateStation] using hn

/-- Witness for C1 at a concrete configuration and report sequence. -/
theorem arf_rate_invariant_witness :
    (runReports ⟨10, 15⟩ 1
        [ArfEvent.dataOk, ArfEvent.dataFailed, ArfEvent.dataFailed, ArfEvent.dataOk]
        (DoCreateStation ⟨10, 15⟩)).m_rate < 1 :=
  arf_rate_invariant ⟨10, 15⟩ 1 (by decide)
    [ArfEvent.dataOk, ArfEvent.dataFailed, ArfEvent.dataFailed, ArfEvent.dataOk]

/-- C10: a single report moves the rate index by at most one step: after
`DoReportDataFailed` the rate is the old value or the old value minus one,
and after `DoReportDataOk` it is the old value or the old value plus one. -/
theorem arf_rate_step_at_most_one (mgr : ArfWifiManager) (n : Nat)
    (s : ArfWifiRemoteStation) :
    ((DoReportDataFailed s).m_rate = s.m_rate ∨
       (DoReportDataFailed s).m_rate + 1 = s.m_rate) ∧
    ((DoReportDataOk mgr n s).m_rate = s.m_rate ∨
       (DoReportDataOk mgr n s).m_rate = s.m_rate + 1) := by
  refine ⟨failed_rate_cases s, ?_⟩
  rcases ok_rate_cases mgr n s with h | ⟨h, _⟩
  · exact Or.inl h
  · exact Or.inr h

/-- C7: each high-throughput-rejection setter fails fatally (modelled as
`Except.error` with the source's `NS_FATAL_ERROR` message) when called with
`true`, and does nothing (returns `ok` with no other effect) when called
with `false`. -/
theorem arf_ht_setters_fatal :
    SetHtSupported true =
        Except.error "WifiRemoteStationManager selected does not support HT rates" ∧
    SetHtSupported false = Except.ok () ∧
    SetVhtSupported true =
        Except.error "WifiRemoteStationManager selected does not support VHT rates" ∧
    SetVhtSupported false = Except.ok () ∧
    SetHeSupported true =
        Except.error "WifiRemoteStationManager selected does not support HE rates" ∧
    SetHeSupported false = Except.ok () :=
  ⟨rfl, rfl, rfl, rfl, rfl, rfl⟩

/-- C8: `DoReportDataFailed` never changes the recovery flag, so after a
failure in Recovery the flag is still set; every further consecutive
failure in the streak (entered with `m_retry ≥ 1`) takes the recovery
branch, leaves the rate unchanged, and resets the timer to 0; and a
`DoReportDataOk` that does not trigger a rate increase clears the flag. -/
theorem arf_failed_preserves_recovery (mgr : ArfWifiManager) (n : Nat)
    (s : ArfWifiRemoteStation) :
    (DoReportDataFailed s).m_recovery = s.m_recovery ∧
    (s.m_recovery = true → 1 ≤ s.m_retry →
       (DoReportDataFailed s).m_rate = s.m_rate ∧
       (DoReportDataFailed s).m_timer = 0) ∧
    ((DoReportDataOk mgr n s).m_recovery = false ∨
       (DoReportDataOk mgr n s).m_rate = s.m_rate + 1) := by
  refine ⟨?_, ?_, ?_⟩
  · unfold DoReportDataFailed
    dsimp only
    split_ifs <;> simp_all
  · intro hrec hretry
    unfold DoReportDataFailed
    dsimp only
    split_ifs <;> simp_all
  · unfold DoReportDataOk
    dsimp only
    split_ifs <;> simp_all

/-- Witness for C8 at a concrete station in Recovery with `m_retry = 1`
(second consecutive failure of the streak). -/
theorem arf_failed_preserves_recovery_witness :
    (DoReportDataFailed ⟨0, 0, 1, true, 1, 15, 10, 2⟩).m_recovery =
        (⟨0, 0, 1, true, 1, 15, 10, 2⟩ : ArfWifiRemoteStation).m_recovery ∧
    ((DoReportDataFailed ⟨0, 0, 1, true, 1, 15, 10, 2⟩).m_rate = 2 ∧
       (DoReportDataFailed ⟨0, 0, 1, true, 1, 15, 10, 2⟩).m_timer = 0) ∧
    ((DoReportDataOk ⟨10, 15⟩ 4 ⟨0, 0, 1, true, 1, 15, 10, 2⟩).m_recovery = false ∨
       (DoReportDataOk ⟨10, 15⟩ 4 ⟨0, 0, 1, true, 1, 15, 10, 2⟩).m_rate = 2 + 1) :=
  ⟨(arf_failed_preserves_recovery ⟨10, 15⟩ 4 ⟨0, 0, 1, true, 1, 15, 10, 2⟩).1,
   (arf_failed_preserves_recovery ⟨10, 15⟩ 4 ⟨0, 0, 1, true, 1, 15, 10, 2⟩).2.1
      rfl (by decide),
   (arf_failed_preserves_recovery ⟨10, 15⟩ 4 ⟨0, 0, 1, true, 1, 15, 10, 2⟩).2.2⟩

/-- C3 counterexample: a station in Recovery (`m_recovery = true`,
`m_retry = 0`) at rate 3 does fall back to rate 2 on a single failure, but
the recovery flag is STILL true afterwards — `DoReportDataFailed` never
clears it — refuting the claim that the station is in Normal mode after
the fallback. -/
theorem arf_recovery_fail_cex :
    (DoReportDataFailed ⟨0, 0, 0, true, 0, 15, 10, 3⟩).m_rate = 2 ∧
    (DoReportDataFailed ⟨0, 0, 0, true, 0, 15, 10, 3⟩).m_timer = 0 ∧
    (DoReportDataFailed ⟨0, 0, 0, true, 0, 15, 10, 3⟩).m_recovery = true := by
  decide

/-- C3 amended: for a station in Recovery with `m_retry = 0` and
`m_rate > 0`, a single `DoReportDataFailed` decrements the rate by exactly
one (immediate fallback after one failure, not two) and resets the timer
to 0, but the recovery flag remains true (it is cleared only by a later
`DoReportDataOk`). -/
theorem arf_recovery_single_failure (s : ArfWifiRemoteStation)
    (hrec : s.m_recovery = true) (hretry : s.m_retry = 0)
    (hrate : 0 < s.m_rate) :
    (DoReportDataFailed s).m_rate + 1 = s.m_rate ∧
    (DoReportDataFailed s).m_timer = 0 ∧
    (DoReportDataFailed s).m_recovery = true := by
  rw [failed_eq]
  simp [hrec, hretry]
  omega

/-- Witness for the amended C3 at a concrete Recovery station at rate 3. -/
theorem arf_recovery_single_failure_witness :
    (DoReportDataFailed ⟨7, 0, 0, true, 0, 15, 10, 3⟩).m_rate + 1 = 3 ∧
    (DoReportDataFailed ⟨7, 0, 0, true, 0, 15, 10, 3⟩).m_timer = 0 ∧
    (DoReportDataFailed ⟨7, 0, 0, true, 0, 15, 10, 3⟩).m_recovery = true :=
  arf_recovery_single_failure ⟨7, 0, 0, true, 0, 15, 10, 3⟩ rfl rfl (by decide)

/-- C4: in Normal mode with `m_retry = 0` and rate 2, the first failure
leaves the rate at 2 and the second consecutive failure drops it to 1 and
resets the timer; in general, for any Normal-mode station a failure
decrements the rate exactly when the new retry count is even and the rate
is positive. -/
theorem arf_normal_two_failure_fallback (s t : ArfWifiRemoteStation)
    (hrec : s.m_recovery = false) (hretry : s.m_retry = 0)
    (hrate : s.m_rate = 2) (htrec : t.m_recovery = false) :
    (DoReportDataFailed s).m_rate = 2 ∧
    (DoReportDataFailed (DoReportDataFailed s)).m_rate = 1 ∧
    (DoReportDataFailed (DoReportDataFailed s)).m_timer = 0 ∧
    ((DoReportDataFailed t).m_rate + 1 = t.m_rate ↔
       ((t.m_retry + 1) % 2 = 0 ∧ t.m_rate ≠ 0)) := by
  have h1 : DoReportDataFailed s =
      { s with m_timer := s.m_timer + 1
             , m_failed := s.m_failed + 1
             , m_retry := 1
             , m_success := 0 } := by
    rw [failed_eq]
    simp [hrec, hretry]
  refine ⟨?_, ?_, ?_, ?_⟩
  · rw [h1]
    exact hrate
  · rw [h1, failed_eq]
    simp [hrec, hrate]
  · rw [h1, failed_eq]
    simp [hrec]
  · rw [failed_eq]
    split_ifs <;> simp_all <;> omega

/-- Witness for C4 at a fresh-streak Normal station at rate 2 and a
second station with an odd in-progress streak. -/
theorem arf_normal_two_failure_fallback_witness :
    (DoReportDataFailed ⟨3, 4, 0, false, 0, 15, 10, 2⟩).m_rate = 2 ∧
    (DoReportDataFailed (DoReportDataFailed ⟨3, 4, 0, false, 0, 15, 10, 2⟩)).m_rate = 1 ∧
    (DoReportDataFailed (DoReportDataFailed ⟨3, 4, 0, false, 0, 15, 10, 2⟩)).m_timer = 0 ∧
    ((DoReportDataFailed ⟨3, 0, 2, false, 3, 15, 10, 2⟩).m_rate + 1 =
        (⟨3, 0, 2, false, 3, 15, 10, 2⟩ : ArfWifiRemoteStation).m_rate ↔
       ((3 + 1) % 2 = 0 ∧
        (⟨3, 0, 2, false, 3, 15, 10, 2⟩ : ArfWifiRemoteStation).m_rate ≠ 0)) :=
  arf_normal_two_failure_fallback
    ⟨3, 4, 0, false, 0, 15, 10, 2⟩ ⟨3, 0, 2, false, 3, 15, 10, 2⟩
    rfl rfl rfl rfl

/-- C9: the rate-increase test compares with exact equality, never
greater-or-equal: any `DoReportDataOk` at which the post-increment timer
strictly exceeds the engine timer threshold and the post-increment success
count differs from the engine success threshold leaves the rate unchanged;
and such a state is reachable from a fresh station under the default
configuration (the timer passes the threshold during a single Normal-mode
failure, which does not reset it). -/
theorem arf_increase_exact_equality :
    (∀ (mgr : ArfWifiManager) (n : Nat) (s : ArfWifiRemoteStation),
        mgr.m_timerThreshold < s.m_timer + 1 →
        s.m_success + 1 ≠ mgr.m_successThreshold →
        (DoReportDataOk mgr n s).m_rate = s.m_rate) ∧
    ((runReports ⟨10, 15⟩ 2
        [ArfEvent.dataOk, ArfEvent.dataOk, ArfEvent.dataOk, ArfEvent.dataOk,
         ArfEvent.dataOk, ArfEvent.dataOk, ArfEvent.dataOk, ArfEvent.dataOk,
         ArfEvent.dataOk, ArfEvent.dataFailed, ArfEvent.dataOk, ArfEvent.dataOk,
         ArfEvent.dataOk, ArfEvent.dataOk, ArfEvent.dataFailed]
        (DoCreateStation ⟨10, 15⟩)).m_timer = 15 ∧
     (runReports ⟨10, 15⟩ 2
        [ArfEvent.dataOk, ArfEvent.dataOk, ArfEvent.dataOk, ArfEvent.dataOk,
         ArfEvent.dataOk, ArfEvent.dataOk, ArfEvent.dataOk, ArfEvent.dataOk,
         ArfEvent.dataOk, ArfEvent.dataFailed, ArfEvent.dataOk, ArfEvent.dataOk,
         ArfEvent.dataOk, ArfEvent.dataOk, ArfEvent.dataFailed, ArfEvent.dataOk]
        (DoCreateStation ⟨10, 15⟩)).m_timer = 16 ∧
     (runReports ⟨10, 15⟩ 2
        [ArfEvent.dataOk, ArfEvent.dataOk, ArfEvent.dataOk, ArfEvent.dataOk,
         ArfEvent.dataOk, ArfEvent.dataOk, ArfEvent.dataOk, ArfEvent.dataOk,
         ArfEvent.dataOk, ArfEvent.dataFailed, ArfEvent.dataOk, ArfEvent.dataOk,
         ArfEvent.dataOk, ArfEvent.dataOk, ArfEvent.dataFailed, ArfEvent.dataOk]
        (DoCreateStation ⟨10, 15⟩)).m_rate = 0) := by
  constructor
  · intro mgr n s htimer hsucc
    rw [ok_eq]
    have h : ¬ (s.m_timer + 1 = mgr.m_timerThreshold) := by omega
    simp [hsucc, h]
  · refine ⟨by decide, by decide, by decide⟩

/-- Witness for C9: at a station whose timer has already passed the
default threshold 15, a success (timer becomes 17 > 15, success becomes 1
≠ 10) does not change the rate. -/
theorem arf_increase_exact_equality_witness :
    (DoReportDataOk ⟨10, 15⟩ 2 ⟨16, 0, 0, false, 1, 15, 10, 0⟩).m_rate =
      (⟨16, 0, 0, false, 1, 15, 10, 0⟩ : ArfWifiRemoteStation).m_rate :=
  arf_increase_exact_equality.1 ⟨10, 15⟩ 2 ⟨16, 0, 0, false, 1, 15, 10, 0⟩
    (by decide) (by decide)

/-- C6 counterexample: a station created while the engine success
threshold is 10 carries the per-station copy 10, yet after the engine-wide
value is changed to 5, five consecutive successes on that station already
trigger the rate increase (rate 1); with the engine value left at 10 the
same five successes leave the rate at 0. The decision follows the
engine-wide value at call time, not the per-station copy. -/
theorem arf_threshold_copies_unused_cex :
    (DoCreateStation ⟨10, 15⟩).m_successThreshold = 10 ∧
    (runReports ⟨5, 15⟩ 2 (List.replicate 5 ArfEvent.dataOk)
        (DoCreateStation ⟨10, 15⟩)).m_rate = 1 ∧
    (runReports ⟨10, 15⟩ 2 (List.replicate 5 ArfEvent.dataOk)
        (DoCreateStation ⟨10, 15⟩)).m_rate = 0 := by
  decide

/-- C6 amended: `DoCreateStation` does copy the engine-wide thresholds
into the per-station fields, but `DoReportDataOk` never reads those
copies: its result is unchanged (except for carrying the fields along)
under any rewrite of `m_successThreshold` / `m_timerTimeout`, so the
rate-increase decision for an existing station follows the engine-wide
configuration at call time. -/
theorem arf_ok_ignores_station_copies (mgr : ArfWifiManager) (n : Nat)
    (s : ArfWifiRemoteStation) (a b : Nat) :
    (DoCreateStation mgr).m_successThreshold = mgr.m_successThreshold ∧
    (DoCreateStation mgr).m_timerTimeout = mgr.m_timerThreshold ∧
    DoReportDataOk mgr n { s with m_successThreshold := a, m_timerTimeout := b }
      = { DoReportDataOk mgr n s with m_successThreshold := a, m_timerTimeout := b } := by
  refine ⟨rfl, rfl, ?_⟩
  rw [ok_eq, ok_eq]
  dsimp only
  split_ifs <;> rfl

/-- C2 counterexample: the station with success count already 5 satisfies
every stated precondition (Normal mode, engine success threshold 10, timer
0 with ample headroom, rate 0 below the top index of a 3-entry table), yet
10 consecutive successes do not behave as claimed: the rate increase fires
on the 5th call (rate already 1 there), and after the 10th call the
success count and timer are 5, not 0, and recovery is false, not true. -/
theorem arf_ten_ok_cex :
    (runReports ⟨10, 15⟩ 3 (List.replicate 5 ArfEvent.dataOk)
        ⟨0, 5, 0, false, 0, 15, 10, 0⟩).m_rate = 1 ∧
    (runReports ⟨10, 15⟩ 3 (List.replicate 10 ArfEvent.dataOk)
        ⟨0, 5, 0, false, 0, 15, 10, 0⟩).m_success = 5 ∧
    (runReports ⟨10, 15⟩ 3 (List.replicate 10 ArfEvent.dataOk)
        ⟨0, 5, 0, false, 0, 15, 10, 0⟩).m_timer = 5 ∧
    (runReports ⟨10, 15⟩ 3 (List.replicate 10 ArfEvent.dataOk)
        ⟨0, 5, 0, false, 0, 15, 10, 0⟩).m_recovery = false := by
  decide

/-- C2 amended: for a Normal-mode station at the START of a success streak
(`m_success = 0`), with engine success threshold 10, timer headroom of at
least 10 reports, and rate headroom, 10 consecutive successes increment
the rate exactly once — on the 10th call (the rate is still unchanged
after 9 calls) — reset success count and timer to 0, and set recovery. -/
theorem arf_ten_ok_increase (mgr : ArfWifiManager) (n : Nat)
    (s : ArfWifiRemoteStation) (hst : mgr.m_successThreshold = 10)
    (_hrec : s.m_recovery = false) (hsucc : s.m_success = 0)
    (htimer : s.m_timer + 10 ≤ mgr.m_timerThreshold)
    (hrate : s.m_rate < n - 1) :
    (runReports mgr n (List.replicate 9 ArfEvent.dataOk) s).m_rate = s.m_rate ∧
    (runReports mgr n (List.replicate 10 ArfEvent.dataOk) s).m_rate = s.m_rate + 1 ∧
    (runReports mgr n (List.replicate 10 ArfEvent.dataOk) s).m_success = 0 ∧
    (runReports mgr n (List.replicate 10 ArfEvent.dataOk) s).m_timer = 0 ∧
    (runReports mgr n (List.replicate 10 ArfEvent.dataOk) s).m_recovery = true := by
  have h9 := okRun_counting mgr n s hsucc hst htimer 9 (by omega) (by omega)
  have hrep : List.replicate 10 ArfEvent.dataOk =
      List.replicate 9 ArfEvent.dataOk ++ [ArfEvent.dataOk] :=
    List.replicate_succ' _ _
  have h10 : runReports mgr n (List.replicate 10 ArfEvent.dataOk) s =
      DoReportDataOk mgr n (runReports mgr n (List.replicate 9 ArfEvent.dataOk) s) := by
    rw [hrep, runReports_append]
    rfl
  refine ⟨by rw [h9], ?_, ?_, ?_, ?_⟩ <;>
  · rw [h10, h9, ok_eq]
    simp [hst, hrate]

/-- Witness for the amended C2 on a fresh station under the default
configuration with a 2-entry rate table. -/
theorem arf_ten_ok_increase_witness :
    (runReports ⟨10, 15⟩ 2 (List.replicate 9 ArfEvent.dataOk)
        (DoCreateStation ⟨10, 15⟩)).m_rate = (DoCreateStation ⟨10, 15⟩).m_rate ∧
    (runReports ⟨10, 15⟩ 2 (List.replicate 10 ArfEvent.dataOk)
        (DoCreateStation ⟨10, 15⟩)).m_rate = (DoCreateStation ⟨10, 15⟩).m_rate + 1 ∧
    (runReports ⟨10, 15⟩ 2 (List.replicate 10 ArfEvent.dataOk)
        (DoCreateStation ⟨10, 15⟩)).m_success = 0 ∧
    (runReports ⟨10, 15⟩ 2 (List.replicate 10 ArfEvent.dataOk)
        (DoCreateStation ⟨10, 15⟩)).m_timer = 0 ∧
    (runReports ⟨10, 15⟩ 2 (List.replicate 10 ArfEvent.dataOk)
        (DoCreateStation ⟨10, 15⟩)).m_recovery = true :=
  arf_ten_ok_increase ⟨10, 15⟩ 2 (DoCreateStation ⟨10, 15⟩)
    rfl rfl rfl (by decide) (by decide)

/-- C5: the rate-increase guard is `m_rate < supportedRateCount - 1`, so
the TOP index is reachable: for any positive engine success threshold and
any table with at least 2 rates there is a report sequence taking a fresh
station to `m_rate = supportedRateCount - 1`; and once there, no success
report moves the rate any higher. -/
theorem arf_top_rate_reachable (mgr : ArfWifiManager)
    (hth : 1 ≤ mgr.m_successThreshold) (n : Nat) (_hn : 2 ≤ n) :
    (∃ es, (runReports mgr n es (DoCreateStation mgr)).m_rate = n - 1) ∧
    (∀ s : ArfWifiRemoteStation, s.m_rate = n - 1 →
        (DoReportDataOk mgr n s).m_rate = n - 1) := by
  constructor
  · obtain ⟨es, he, -⟩ := climb mgr n hth (n - 1) (DoCreateStation mgr) rfl
      (by simp [DoCreateStation])
    refine ⟨es, ?_⟩
    simpa [DoCreateStation] using he
  · intro s hs
    rw [ok_eq]
    have h : ¬ (s.m_rate < n - 1) := by omega
    simp [h, hs]

/-- Witness for C5 under the default configuration with a 2-entry table. -/
theorem arf_top_rate_reachable_witness :
    (∃ es, (runReports ⟨10, 15⟩ 2 es (DoCreateStation ⟨10, 15⟩)).m_rate = 2 - 1) ∧
    (∀ s : ArfWifiRemoteStation, s.m_rate = 2 - 1 →
        (DoReportDataOk ⟨10, 15⟩ 2 s).m_rate = 2 - 1) :=
  arf_top_rate_reachable ⟨10, 15⟩ (by decide) 2 (by decide)

example : (DoReportDataFailed (DoCreateStation ⟨10, 15⟩)).m_retry = 1 := by decide
example : (runReports ⟨10, 15⟩ 3 (List.replicate 10 ArfEvent.dataOk)
    (DoCreateStation ⟨10, 15⟩)).m_rate = 1 := by decide
example : (runReports ⟨10, 15⟩ 3 (List.replicate 10 ArfEvent.dataOk)
    (DoCreateStation ⟨10, 15⟩)).m_recovery = true := by decide
example : (runReports ⟨10, 15⟩ 3 (List.replicate 9 ArfEvent.dataOk)
    (DoCreateStation ⟨10, 15⟩)).m_rate = 0 := by decide
